import Mathlib

/-!
Verification of the fullerite SignalFx handler
(src/src/fullerite/handler/signalfx.go) against its
natural-language specification.

The Go code is shallowly embedded: the handler struct becomes a Lean
structure, the `Run` channel loop becomes a step function driven by a
list of inputs (one input per received metric, carrying the wall-clock
times the loop would observe and an oracle for the HTTP world), and
`emitMetrics` becomes a pure function from the handler state, the batch
and the oracle to an outcome.  Metric values are modelled as rationals;
wall-clock instants (and hence elapsed seconds) are modelled as
integers, which keeps every trigger comparison exact and computable.
-/

/-- Modelled from the spec: the `metric` package's metric type
(`metric.MetricType` is not under src/).  The spec names the three
types Gauge, Counter and CumulativeCounter and the source's `switch`
has a default case, so any other value is represented by `other`. -/
inductive InputMetricType where
  | gauge
  | counter
  | cumulativeCounter
  | other (s : String)
deriving DecidableEq

/-- Modelled from the spec: the `metric.Metric` input object
`{name, value, type, dimensions}` (the `metric` package is not under
src/). -/
structure Metric where
  name : String
  value : ℚ
  metricType : InputMetricType
  dimensions : List (String × String)
deriving DecidableEq

/-- Wire-format metric type enum of the SignalFx protobuf
(`MetricType_GAUGE` etc. in the source). -/
inductive WireMetricType where
  | GAUGE
  | COUNTER
  | CUMULATIVE_COUNTER
deriving DecidableEq

/-- Protobuf `Datum` value: the source only ever sets `DoubleValue`. -/
structure Datum where
  doubleValue : Option ℚ
deriving DecidableEq

/-- Protobuf `Dimension`: pointer-to-string key and value in Go,
modelled as options. -/
structure Dimension where
  key : Option String
  value : Option String
deriving DecidableEq

/-- Protobuf `DataPoint` as used by `convertToProto`: all fields are
pointers in Go (absent = `none`). -/
structure DataPoint where
  metric : Option String
  value : Option Datum
  metricType : Option WireMetricType
  source : Option String
  dimensions : List Dimension
deriving DecidableEq

/-- The SignalFx handler state: `endpoint` and `authToken` from
`SignalFx`, the rest are the `BaseHandler` fields the source reads and
writes (`interval`, `maxBufferSize`, the configured prefix and default
dimensions, `emissionTimes` and the sent/dropped counters). -/
structure SignalFx where
  prefixStr : String
  defaultDimensions : List (String × String)
  interval : ℤ
  maxBufferSize : ℕ
  endpoint : String
  authToken : String
  emissionTimes : List ℤ
  metricsSent : ℕ
  metricsDropped : ℕ
deriving DecidableEq

/-- Modelled from the spec: `metric.GetDimensions(defaults)` (the
`metric` package is not under src/) merges the metric's own dimensions
with the handler's default dimensions, the metric's taking precedence
on key collision. -/
def Metric.getDimensions (m : Metric) (defaults : List (String × String)) :
    List (String × String) :=
  defaults.filter (fun kv => m.dimensions.all (fun kv2 => kv2.1 ≠ kv.1)) ++ m.dimensions

/-- Embedding of `convertToProto` (signalfx.go lines 108-146): name is
prefix + name, value is a double Datum, source is the literal
"fullerite", the metric type is mapped by the `switch` (unset for any
other type), and each merged dimension becomes one Dimension entry. -/
def SignalFx.convertToProto (s : SignalFx) (incomingMetric : Metric) : DataPoint :=
  { metric := some (s.prefixStr ++ incomingMetric.name)
    value := some { doubleValue := some incomingMetric.value }
    metricType :=
      match incomingMetric.metricType with
      | .gauge => some .GAUGE
      | .counter => some .COUNTER
      | .cumulativeCounter => some .CUMULATIVE_COUNTER
      | .other _ => none
    source := some "fullerite"
    dimensions :=
      (incomingMetric.getDimensions s.defaultDimensions).map
        (fun kv => { key := some kv.1, value := some kv.2 }) }

/-- HTTP response as `net/http` delivers it: `Status` is the status
line sent by the server (code and reason phrase, e.g. "200 OK"),
`StatusCode` is the numeric code parsed from its first token. -/
structure Response where
  status : String
  statusCode : ℕ
  body : String
deriving DecidableEq

/-- First space-separated token of a status line, as `net/http` parses
the status code out of `Response.Status`. -/
def statusTok (s : String) : String :=
  (s.toList.takeWhile (fun c => c ≠ ' ')).asString

/-- Coherence of a `Response` as guaranteed by `net/http`: the status
code is the numeric value of the status line's first token. -/
def Response.wf (r : Response) : Prop :=
  statusTok r.status = toString r.statusCode

/-- Oracle for the three fallible external calls `emitMetrics` makes:
`proto.Marshal`, `http.NewRequest` and `client.Do`. -/
structure Oracle where
  marshalOk : Bool
  requestOk : Bool
  netResult : Except String Response

/-- Classification of one `emitMetrics` call, one constructor per
`return` path of signalfx.go lines 148-201. -/
inductive EmitResult where
  | skippedEmpty
  | skippedConfig
  | encodeFailure
  | requestFailure
  | networkFailure (err : String)
  | remoteRejected (status : String) (body : String)
  | success
deriving DecidableEq

/-- Result of one `emitMetrics` call together with the number of HTTP
requests it issued (`client.Do` calls). -/
structure EmitOutput where
  result : EmitResult
  httpRequests : ℕ
deriving DecidableEq

/-- Embedding of `emitMetrics` (signalfx.go lines 148-201).  The Go
method mutates nothing and returns nothing; here it returns the (new)
handler state next to the outcome so that frame claims are statable.
Branches in source order: empty payload, missing auth token or
endpoint, Marshal failure, NewRequest failure, Do failure, status line
other than "200 OK", success. -/
def SignalFx.emitMetrics (s : SignalFx) (datapoints : List DataPoint)
    (o : Oracle) : SignalFx × EmitOutput :=
  if datapoints.length = 0 then
    (s, { result := .skippedEmpty, httpRequests := 0 })
  else if s.authToken = "" ∨ s.endpoint = "" then
    (s, { result := .skippedConfig, httpRequests := 0 })
  else if o.marshalOk = false then
    (s, { result := .encodeFailure, httpRequests := 0 })
  else if o.requestOk = false then
    (s, { result := .requestFailure, httpRequests := 0 })
  else
    match o.netResult with
    | .error e => (s, { result := .networkFailure e, httpRequests := 1 })
    | .ok rsp =>
      if rsp.status ≠ "200 OK" then
        (s, { result := .remoteRejected rsp.status rsp.body, httpRequests := 1 })
      else
        (s, { result := .success, httpRequests := 1 })

/-- Modelled from the spec: the reduction of the emission-duration list
to the single value reported by `makeEmissionTimeMetric` (the
`BaseHandler` is not under src/); the spec leaves the reducer open
("mean or latest"), the latest duration (0 when none) is used here. -/
def reduceEmissionTimes (l : List ℤ) : ℚ :=
  ((l.getLastD 0 : ℤ) : ℚ)

/-- Modelled from the spec: `BaseHandler.makeEmissionTimeMetric` (not
under src/) builds the synthetic emission-time metric; the name echoes
the source comment "Report HandlerEmitTiming". -/
def SignalFx.makeEmissionTimeMetric (s : SignalFx) : Metric :=
  { name := "HandlerEmitTiming", value := reduceEmissionTimes s.emissionTimes,
    metricType := .gauge, dimensions := [] }

/-- Modelled from the spec: `BaseHandler.resetEmissionTimes` (not under
src/) clears the emission-duration list. -/
def SignalFx.resetEmissionTimes (s : SignalFx) : SignalFx :=
  { s with emissionTimes := [] }

/-- Modelled from the spec: `BaseHandler.makeMetricsSentMetric` (not
under src/) reports the running sent counter. -/
def SignalFx.makeMetricsSentMetric (s : SignalFx) : Metric :=
  { name := "MetricsSent", value := (s.metricsSent : ℚ),
    metricType := .gauge, dimensions := [] }

/-- Modelled from the spec: `BaseHandler.resetMetricsSent` (not under
src/) resets the sent counter to zero. -/
def SignalFx.resetMetricsSent (s : SignalFx) : SignalFx :=
  { s with metricsSent := 0 }

/-- Modelled from the spec: `BaseHandler.makeMetricsDroppedMetric` (not
under src/) reports the running dropped counter. -/
def SignalFx.makeMetricsDroppedMetric (s : SignalFx) : Metric :=
  { name := "MetricsDropped", value := (s.metricsDropped : ℚ),
    metricType := .gauge, dimensions := [] }

/-- Modelled from the spec: `BaseHandler.resetMetricsDropped` (not
under src/) resets the dropped counter to zero. -/
def SignalFx.resetMetricsDropped (s : SignalFx) : SignalFx :=
  { s with metricsDropped := 0 }

/-- One iteration's external inputs for the `Run` loop: the metric
received from the channel, the wall-clock instant the loop observes
while deciding (signalfx.go lines 68-74 and 94), the instant after
`emitMetrics` returns (line 96), and the HTTP-world oracle for the
flush, if one happens. -/
structure StepInput where
  m : Metric
  now : ℤ
  tAfter : ℤ
  oracle : Oracle

/-- Local state of the `Run` loop: the handler plus the loop variables
`datapoints`, `lastEmission` and `lastHandlerMetricsEmission`. -/
structure BatcherState where
  handler : SignalFx
  datapoints : List DataPoint
  lastEmission : ℤ
  lastHandlerMetricsEmission : ℤ
deriving DecidableEq

/-- Flush trigger of signalfx.go lines 68-71: the elapsed seconds since
`lastEmission` reached `interval`, or the buffer (with the datapoint
just appended, hence `length + 1`) reached `maxBufferSize`. -/
def doEmit (st : BatcherState) (inp : StepInput) : Bool :=
  decide (st.handler.interval ≤ inp.now - st.lastEmission)
    || decide (st.handler.maxBufferSize ≤ st.datapoints.length + 1)

/-- Self-report trigger of signalfx.go line 69: the elapsed seconds
since `lastHandlerMetricsEmission` reached the same `interval`. -/
def selfFires (st : BatcherState) (inp : StepInput) : Bool :=
  decide (st.handler.interval ≤ inp.now - st.lastHandlerMetricsEmission)

/-- Self-report block of signalfx.go lines 74-89: make and append the
emission-time, metrics-sent and metrics-dropped datapoints, resetting
each underlying value right after reading it. -/
def selfMetricsBlock (s : SignalFx) (dps : List DataPoint) :
    SignalFx × List DataPoint :=
  let m1 := s.makeEmissionTimeMetric
  let s1 := s.resetEmissionTimes
  let dps1 := dps ++ [s1.convertToProto m1]
  let m2 := s1.makeMetricsSentMetric
  let s2 := s1.resetMetricsSent
  let dps2 := dps1 ++ [s2.convertToProto m2]
  let m3 := s2.makeMetricsDroppedMetric
  let s3 := s2.resetMetricsDropped
  let dps3 := dps2 ++ [s3.convertToProto m3]
  (s3, dps3)

/-- Handler and buffer after the (conditional) self-report block, with
the incoming metric already converted and appended (lines 64-90). -/
def postSelf (st : BatcherState) (inp : StepInput) : SignalFx × List DataPoint :=
  if selfFires st inp then
    selfMetricsBlock st.handler (st.datapoints ++ [st.handler.convertToProto inp.m])
  else
    (st.handler, st.datapoints ++ [st.handler.convertToProto inp.m])

/-- New self-report anchor: line 74 resets it to "now" exactly when the
self-report trigger fired. -/
def newLastHM (st : BatcherState) (inp : StepInput) : ℤ :=
  if selfFires st inp then inp.now else st.lastHandlerMetricsEmission

/-- Record of one flush: the batch passed to `emitMetrics` and what
`emitMetrics` did with it. -/
structure FlushEvent where
  batch : List DataPoint
  output : EmitOutput
deriving DecidableEq

/-- One iteration of the `Run` loop (signalfx.go lines 63-105): convert
and append the incoming metric, evaluate both triggers, run the
self-report block if due, and if a flush is due call `emitMetrics`,
record the emission duration, reset the buffer and reset
`lastEmission` - regardless of the emission's outcome.  Returns the new
state and the flush event, if any. -/
def stepEv (st : BatcherState) (inp : StepInput) :
    BatcherState × Option FlushEvent :=
  if doEmit st inp then
    let r := (postSelf st inp).1.emitMetrics (postSelf st inp).2 inp.oracle
    ({ handler := { r.1 with
          emissionTimes := r.1.emissionTimes ++ [inp.tAfter - inp.now] },
       datapoints := [],
       lastEmission := inp.tAfter,
       lastHandlerMetricsEmission := newLastHM st inp },
     some { batch := (postSelf st inp).2, output := r.2 })
  else
    ({ handler := (postSelf st inp).1,
       datapoints := (postSelf st inp).2,
       lastEmission := st.lastEmission,
       lastHandlerMetricsEmission := newLastHM st inp },
     none)

/-- State transformer of one `Run` iteration. -/
def step (st : BatcherState) (inp : StepInput) : BatcherState :=
  (stepEv st inp).1

/-- Initial loop state (signalfx.go lines 59-62): empty buffer, both
clock anchors at the loop start instant. -/
def initState (s : SignalFx) (t0 : ℤ) : BatcherState :=
  { handler := s, datapoints := [], lastEmission := t0,
    lastHandlerMetricsEmission := t0 }

/-- Whole-run semantics of the `Run` loop: final state and the list of
flush events, in order. -/
def runTrace : BatcherState → List StepInput → BatcherState × List FlushEvent
  | st, [] => (st, [])
  | st, inp :: rest =>
    ((runTrace (step st inp) rest).1,
     (stepEv st inp).2.toList ++ (runTrace (step st inp) rest).2)

/-- Buffer length at each iteration's flush decision (line 70): the
length after appending the incoming datapoint, before any self-report
datapoints of the same iteration. -/
def decisionLengths : BatcherState → List StepInput → List ℕ
  | _, [] => []
  | st, inp :: rest =>
    (st.datapoints.length + 1) :: decisionLengths (step st inp) rest

/-- Instants at which the self-report trigger fired during a run. -/
def selfFireTimes : BatcherState → List StepInput → List ℤ
  | _, [] => []
  | st, inp :: rest =>
    if selfFires st inp then inp.now :: selfFireTimes (step st inp) rest
    else selfFireTimes (step st inp) rest

/-- Sample gauge metric used by concrete runs. -/
def mGauge : Metric :=
  { name := "m", value := 1, metricType := .gauge, dimensions := [] }

/-- Oracle of a fully healthy HTTP world: serialization, request
construction and the POST succeed and the server answers "200 OK". -/
def okOracle : Oracle :=
  { marshalOk := true, requestOk := true,
    netResult := .ok { status := "200 OK", statusCode := 200, body := "" } }

/-- Sample configured handler with `interval = 2` and
`maxBufferSize = 2`. -/
def exS : SignalFx :=
  { prefixStr := "", defaultDimensions := [], interval := 2, maxBufferSize := 2,
    endpoint := "e", authToken := "t", emissionTimes := [], metricsSent := 0,
    metricsDropped := 0 }

/-- Step input delivering `mGauge` at instant `t` with a healthy HTTP
world and an instantaneous emission. -/
def inpAt (t : ℤ) : StepInput :=
  { m := mGauge, now := t, tAfter := t, oracle := okOracle }

/-- Concrete arrival schedule: metrics at instants 1, 1, 2 and 4.  With
`exS` this desynchronizes the two clock anchors via a size-triggered
flush and then lets the buffer carry self-report points across an
iteration. -/
def exInputs : List StepInput := [inpAt 1, inpAt 1, inpAt 2, inpAt 4]

/-- Handler for the scenario of claim C8: `interval = 1` and
`maxBufferSize = 100`. -/
def s8 : SignalFx :=
  { exS with interval := 1, maxBufferSize := 100 }

/-- Response of an HTTP 200 whose status line carries no reason phrase:
`net/http` then reports `Status = "200"` with `StatusCode = 200`. -/
def rsp200 : Response :=
  { status := "200", statusCode := 200, body := "overloaded" }

/-- Oracle delivering `rsp200` after successful serialization and
request construction. -/
def o200 : Oracle :=
  { marshalOk := true, requestOk := true, netResult := .ok rsp200 }

/-- Handler configured without an auth token. -/
def noAuthS : SignalFx :=
  { exS with authToken := "" }

/-- Second flush event of the `exS`/`exInputs` run (the one whose batch
holds maxBufferSize + 6 datapoints). -/
def evW : FlushEvent :=
  (runTrace (initState exS 0) exInputs).2.getD 1
    { batch := [], output := { result := .skippedEmpty, httpRequests := 0 } }

lemma emitMetrics_fst (s : SignalFx) (d : List DataPoint) (o : Oracle) :
    (s.emitMetrics d o).1 = s := by
  unfold SignalFx.emitMetrics
  repeat' split
  all_goals rfl

lemma selfMetricsBlock_fst (s : SignalFx) (d : List DataPoint) :
    (selfMetricsBlock s d).1
      = { s with emissionTimes := [], metricsSent := 0, metricsDropped := 0 } := rfl

lemma selfMetricsBlock_snd_length (s : SignalFx) (d : List DataPoint) :
    (selfMetricsBlock s d).2.length = d.length + 3 := by
  simp [selfMetricsBlock]

lemma postSelf_fst (st : BatcherState) (inp : StepInput) :
    (postSelf st inp).1
      = if selfFires st inp then
          { st.handler with emissionTimes := [], metricsSent := 0, metricsDropped := 0 }
        else st.handler := by
  unfold postSelf
  split <;> simp [selfMetricsBlock_fst]

lemma postSelf_interval (st : BatcherState) (inp : StepInput) :
    (postSelf st inp).1.interval = st.handler.interval := by
  rw [postSelf_fst]
  split <;> rfl

lemma postSelf_maxBufferSize (st : BatcherState) (inp : StepInput) :
    (postSelf st inp).1.maxBufferSize = st.handler.maxBufferSize := by
  rw [postSelf_fst]
  split <;> rfl

lemma postSelf_snd_length (st : BatcherState) (inp : StepInput) :
    (postSelf st inp).2.length
      = st.datapoints.length + 1 + (if selfFires st inp then 3 else 0) := by
  unfold postSelf
  split <;> simp [selfMetricsBlock_snd_length]

lemma step_spec (st : BatcherState) (inp : StepInput) :
    step st inp =
      if doEmit st inp then
        { handler := { (postSelf st inp).1 with
            emissionTimes := (postSelf st inp).1.emissionTimes ++ [inp.tAfter - inp.now] },
          datapoints := [],
          lastEmission := inp.tAfter,
          lastHandlerMetricsEmission := newLastHM st inp }
      else
        { handler := (postSelf st inp).1,
          datapoints := (postSelf st inp).2,
          lastEmission := st.lastEmission,
          lastHandlerMetricsEmission := newLastHM st inp } := by
  unfold step stepEv
  split <;> simp [emitMetrics_fst]

lemma stepEv_snd (st : BatcherState) (inp : StepInput) :
    (stepEv st inp).2 =
      if doEmit st inp then
        some { batch := (postSelf st inp).2,
               output := ((postSelf st inp).1.emitMetrics (postSelf st inp).2 inp.oracle).2 }
      else none := by
  unfold stepEv
  split <;> rfl

lemma step_interval (st : BatcherState) (inp : StepInput) :
    (step st inp).handler.interval = st.handler.interval := by
  rw [step_spec]
  split <;> simp [postSelf_interval]

lemma step_maxBufferSize (st : BatcherState) (inp : StepInput) :
    (step st inp).handler.maxBufferSize = st.handler.maxBufferSize := by
  rw [step_spec]
  split <;> simp [postSelf_maxBufferSize]

lemma step_lastHM (st : BatcherState) (inp : StepInput) :
    (step st inp).lastHandlerMetricsEmission = newLastHM st inp := by
  rw [step_spec]
  split <;> rfl

lemma not_doEmit_size (st : BatcherState) (inp : StepInput)
    (h : ¬ doEmit st inp = true) :
    st.datapoints.length + 1 < st.handler.maxBufferSize := by
  simp only [doEmit, Bool.or_eq_true, decide_eq_true_eq, not_or] at h
  omega

lemma step_datapoints_le (st : BatcherState) (inp : StepInput) :
    (step st inp).datapoints.length ≤ (step st inp).handler.maxBufferSize + 2 := by
  rw [step_spec]
  split
  · simp
  · rename_i h
    have hs := not_doEmit_size st inp h
    rw [postSelf_snd_length, postSelf_maxBufferSize]
    split <;> omega

lemma decisionLengths_le (inputs : List StepInput) :
    ∀ st : BatcherState, st.datapoints.length ≤ st.handler.maxBufferSize + 2 →
      ∀ n ∈ decisionLengths st inputs, n ≤ st.handler.maxBufferSize + 3 := by
  induction inputs with
  | nil =>
    intro st _ n hn
    simp [decisionLengths] at hn
  | cons inp rest ih =>
    intro st hst n hn
    rw [decisionLengths] at hn
    rcases List.mem_cons.mp hn with h1 | h2
    · omega
    · have := ih (step st inp) (step_datapoints_le st inp) n h2
      rwa [step_maxBufferSize] at this

lemma runTrace_flush_bound (inputs : List StepInput) :
    ∀ st : BatcherState, st.datapoints.length ≤ st.handler.maxBufferSize + 2 →
      ∀ ev ∈ (runTrace st inputs).2,
        ev.batch.length ≤ st.handler.maxBufferSize + 6 := by
  induction inputs with
  | nil =>
    intro st _ ev hev
    simp [runTrace] at hev
  | cons inp rest ih =>
    intro st hst ev hev
    rw [runTrace] at hev
    simp only [List.mem_append] at hev
    rcases hev with h1 | h2
    · rw [stepEv_snd] at h1
      by_cases hd : doEmit st inp = true
      · rw [if_pos hd] at h1
        simp only [Option.toList_some, List.mem_singleton] at h1
        subst h1
        simp only [postSelf_snd_length]
        split <;> omega
      · rw [if_neg hd] at h1
        simp at h1
    · have := ih (step st inp) (step_datapoints_le st inp) ev h2
      rwa [step_maxBufferSize] at this

lemma selfFires_of_eq_true (st : BatcherState) (inp : StepInput)
    (h : selfFires st inp = true) :
    st.handler.interval ≤ inp.now - st.lastHandlerMetricsEmission := by
  simpa [selfFires] using h

lemma selfFireTimes_chain (inputs : List StepInput) :
    ∀ st : BatcherState,
      List.Chain (fun a b => st.handler.interval ≤ b - a)
        st.lastHandlerMetricsEmission (selfFireTimes st inputs) := by
  induction inputs with
  | nil =>
    intro st
    rw [selfFireTimes]
    exact List.Chain.nil
  | cons inp rest ih =>
    intro st
    rw [selfFireTimes]
    by_cases h : selfFires st inp = true
    · rw [if_pos h]
      refine List.Chain.cons (selfFires_of_eq_true st inp h) ?_
      have := ih (step st inp)
      simpa [step_interval, step_lastHM, newLastHM, h] using this
    · rw [if_neg h]
      have := ih (step st inp)
      simpa [step_interval, step_lastHM, newLastHM, h] using this

/-- C1: in the Batcher loop a flush occurs on an iteration exactly when
the elapsed time since the last flush is at least `interval` or the
buffer length (including the datapoint appended this iteration) is at
least `maxBufferSize` - a disjunction; and after any flush attempt the
buffer is replaced by a fresh empty buffer and `lastEmission` is reset
to the current time, with the whole post-state independent of the
Transport outcome (the HTTP oracle). -/
theorem c1_flush_iff_and_reset (st : BatcherState) (inp : StepInput) (o2 : Oracle) :
    (doEmit st inp = true ↔
      (st.handler.interval ≤ inp.now - st.lastEmission
        ∨ st.handler.maxBufferSize ≤ st.datapoints.length + 1))
    ∧ (doEmit st inp = true →
        (step st inp).datapoints = [] ∧ (step st inp).lastEmission = inp.tAfter)
    ∧ step st { inp with oracle := o2 } = step st inp := by
  refine ⟨?_, ?_, ?_⟩
  · simp [doEmit]
  · intro h
    rw [step_spec, if_pos h]
    exact ⟨rfl, rfl⟩
  · rw [step_spec, step_spec]
    rfl

/-- Witness for C1 at a concrete flushing iteration. -/
theorem c1_flush_iff_and_reset_witness :
    doEmit (initState s8 0) (inpAt 2) = true
    ∧ ((step (initState s8 0) (inpAt 2)).datapoints = []
        ∧ (step (initState s8 0) (inpAt 2)).lastEmission = (inpAt 2).tAfter) :=
  ⟨by decide, (c1_flush_iff_and_reset (initState s8 0) (inpAt 2) okOracle).2.1 (by decide)⟩

/-- C2: for every input metric, `convertToProto` produces a DataPoint
whose name is prefix + metric name, whose type follows the mapping
Gauge to GAUGE, Counter to COUNTER, CumulativeCounter to
CUMULATIVE_COUNTER, and whose type is left unset for any other metric
type. -/
theorem c2_convertToProto_mapping (s : SignalFx) (n : String) (v : ℚ)
    (d : List (String × String)) (t : InputMetricType) (u : String) :
    (s.convertToProto { name := n, value := v, metricType := t, dimensions := d }).metric
        = some (s.prefixStr ++ n)
    ∧ (s.convertToProto
        { name := n, value := v, metricType := .gauge, dimensions := d }).metricType
        = some .GAUGE
    ∧ (s.convertToProto
        { name := n, value := v, metricType := .counter, dimensions := d }).metricType
        = some .COUNTER
    ∧ (s.convertToProto
        { name := n, value := v, metricType := .cumulativeCounter, dimensions := d }).metricType
        = some .CUMULATIVE_COUNTER
    ∧ (s.convertToProto
        { name := n, value := v, metricType := .other u, dimensions := d }).metricType
        = none :=
  ⟨rfl, rfl, rfl, rfl, rfl⟩

/-- C3 counterexample: the code compares the status line string to
"200 OK", not the status code to 200, so an HTTP 200 response whose
status line is just "200" (no reason phrase; `rsp200.wf` checks the
code/status-line coherence `net/http` guarantees) is reported as a
remote rejection, refuting "treats exactly an HTTP 200 response as
success". -/
theorem c3_http200_not_success_counterexample :
    rsp200.wf ∧ rsp200.statusCode = 200
    ∧ (exS.emitMetrics [exS.convertToProto mGauge] o200).2.result
        = .remoteRejected "200" "overloaded"
    ∧ ¬ (exS.emitMetrics [exS.convertToProto mGauge] o200).2.result
        = .success := by
  refine ⟨show statusTok rsp200.status = toString rsp200.statusCode by decide,
    rfl, by decide, by decide⟩

/-- C3 (amended): when a response is received, `emitMetrics` treats
exactly a status line equal to "200 OK" as success; every response with
any other status line (including HTTP 200 with a nonstandard or absent
reason phrase) is reported as a remote rejection carrying the status
and the response body. -/
theorem c3_success_iff_status_line_200_ok (s : SignalFx) (dps : List DataPoint)
    (o : Oracle) (rsp : Response)
    (hn : o.netResult = .ok rsp) (hne : ¬ dps.length = 0)
    (ha : ¬ s.authToken = "") (he : ¬ s.endpoint = "")
    (hm : o.marshalOk = true) (hr : o.requestOk = true) :
    ((s.emitMetrics dps o).2.result = .success ↔ rsp.status = "200 OK")
    ∧ (¬ rsp.status = "200 OK" →
        (s.emitMetrics dps o).2.result = .remoteRejected rsp.status rsp.body) := by
  by_cases hs : rsp.status = "200 OK"
  · simp [SignalFx.emitMetrics, hne, ha, he, hm, hr, hn, hs]
  · simp [SignalFx.emitMetrics, hne, ha, he, hm, hr, hn, hs]

/-- Witness for C3 (amended) at the `rsp200` response. -/
theorem c3_success_iff_status_line_200_ok_witness :
    ((exS.emitMetrics [exS.convertToProto mGauge] o200).2.result = .success
        ↔ rsp200.status = "200 OK")
    ∧ (¬ rsp200.status = "200 OK" →
        (exS.emitMetrics [exS.convertToProto mGauge] o200).2.result
          = .remoteRejected rsp200.status rsp200.body) :=
  c3_success_iff_status_line_200_ok exS [exS.convertToProto mGauge] o200 rsp200
    rfl (by decide) (by decide) (by decide) rfl rfl

/-- C4 (code-bug evaluation): at a fully successful send - nonempty
batch, configured handler, server answers "200 OK" - the code returns
success yet leaves the sent counter untouched at 0; the handler's
self-reported sent count therefore never reflects successful sends,
contradicting the documented `sentCount += len(batch)`. -/
theorem c4_sent_counter_unchanged_on_success :
    (exS.emitMetrics [exS.convertToProto mGauge] okOracle).2.result = .success
    ∧ (exS.emitMetrics [exS.convertToProto mGauge] okOracle).1.metricsSent
        = exS.metricsSent
    ∧ exS.metricsSent = 0 := by
  refine ⟨by decide, by decide, rfl⟩

/-- C5: `emitMetrics` is a no-op for an empty batch (returns the skip
outcome, no error, no HTTP request), and whenever the auth token or the
endpoint is empty it issues no HTTP request for any batch. -/
theorem c5_emit_noop_empty_or_unconfigured (s : SignalFx) (dps : List DataPoint)
    (o : Oracle) :
    (dps = [] →
      s.emitMetrics dps o = (s, { result := .skippedEmpty, httpRequests := 0 }))
    ∧ ((s.authToken = "" ∨ s.endpoint = "") →
        (s.emitMetrics dps o).2.httpRequests = 0) := by
  constructor
  · intro h
    subst h
    rfl
  · intro h
    unfold SignalFx.emitMetrics
    by_cases h0 : dps.length = 0
    · rw [if_pos h0]
    · rw [if_neg h0, if_pos h]

/-- Witness for C5: a handler with an empty auth token issues no HTTP
request for a nonempty batch. -/
theorem c5_emit_noop_empty_or_unconfigured_witness :
    noAuthS.authToken = ""
    ∧ (noAuthS.emitMetrics [noAuthS.convertToProto mGauge] okOracle).2.httpRequests
        = 0 :=
  ⟨rfl,
    (c5_emit_noop_empty_or_unconfigured noAuthS [noAuthS.convertToProto mGauge]
      okOracle).2 (Or.inl rfl)⟩

/-- C6 counterexample: with `maxBufferSize = 2` the run `exInputs`
reaches an iteration whose flush decision is evaluated at buffer length
5: a size-triggered flush desynchronizes the two clock anchors, a later
self-report fires without a flush and leaves 4 points buffered, so the
next decision sees 5 > maxBufferSize, refuting "the batch never exceeds
maxBufferSize entries before a flush decision is made". -/
theorem c6_buffer_exceeds_maxBufferSize_counterexample :
    decisionLengths (initState exS 0) exInputs = [1, 2, 1, 5]
    ∧ exS.maxBufferSize = 2
    ∧ ¬ (∀ n ∈ decisionLengths (initState exS 0) exInputs,
          n ≤ exS.maxBufferSize) := by
  refine ⟨by decide, rfl, by decide⟩

/-- C6 (amended): in every reachable state of the Batcher loop, the
buffer holds at most `maxBufferSize + 3` entries when the flush
decision is made (the 3 accounts for self-report datapoints carried
over from a previous non-flushing iteration). -/
theorem c6_decision_length_bound (s : SignalFx) (t0 : ℤ) (inputs : List StepInput)
    (n : ℕ) (hn : n ∈ decisionLengths (initState s t0) inputs) :
    n ≤ s.maxBufferSize + 3 :=
  decisionLengths_le inputs (initState s t0) (by simp [initState]) n hn

/-- Witness for C6 (amended) at the first decision of the concrete run. -/
theorem c6_decision_length_bound_witness :
    1 ∈ decisionLengths (initState exS 0) exInputs ∧ 1 ≤ exS.maxBufferSize + 3 :=
  ⟨by decide, c6_decision_length_bound exS 0 exInputs 1 (by decide)⟩

/-- C7: self-report metrics are emitted at most once per interval
window - successive firing instants of the self-report trigger (which
uses its own anchor, reset when it fires) are at least `interval`
apart, starting from the loop-start anchor - and immediately after the
self-report block appends its three synthetic datapoints, the sent and
dropped counters are 0 and the emission-duration list is empty. -/
theorem c7_self_report_spacing_and_resets (s : SignalFx) (t0 : ℤ)
    (inputs : List StepInput) (s2 : SignalFx) (dps : List DataPoint) :
    List.Chain (fun a b => s.interval ≤ b - a) t0
      (selfFireTimes (initState s t0) inputs)
    ∧ (selfMetricsBlock s2 dps).1.metricsSent = 0
    ∧ (selfMetricsBlock s2 dps).1.metricsDropped = 0
    ∧ (selfMetricsBlock s2 dps).1.emissionTimes = []
    ∧ (selfMetricsBlock s2 dps).2.length = dps.length + 3 :=
  ⟨selfFireTimes_chain inputs (initState s t0), rfl, rfl, rfl,
    selfMetricsBlock_snd_length s2 dps⟩

/-- C8 counterexample: with `maxBufferSize = 100`, `interval = 1`, a
single metric arriving after more than one interval produces exactly
one flush, but it carries 4 datapoints (the metric plus the three
self-report points, whose trigger shares the same interval and initial
anchor), not exactly 1; and under the literal reading (enqueue at loop
start, then wait) no flush ever fires, because the loop only evaluates
its triggers when a metric arrives. -/
theorem c8_single_metric_flush_counterexample :
    s8.maxBufferSize = 100 ∧ s8.interval = 1
    ∧ (runTrace (initState s8 0) [inpAt 2]).2.map (fun e => e.batch.length) = [4]
    ∧ ¬ (∀ ev ∈ (runTrace (initState s8 0) [inpAt 2]).2, ev.batch.length = 1)
    ∧ (runTrace (initState s8 0) [inpAt 0]).2 = [] := by
  refine ⟨rfl, rfl, by decide, by decide, by decide⟩

/-- C8 (amended): with `maxBufferSize = 100` and `interval = 1`, a
single metric arriving more than one interval after loop start triggers
exactly one flush carrying 4 datapoints: the metric plus the three
self-report points. -/
theorem c8_single_metric_flush_carries_four (s : SignalFx) (t0 : ℤ)
    (inp : StepInput) (hmbs : s.maxBufferSize = 100) (hint : s.interval = 1)
    (ht : 1 < inp.now - t0) :
    (runTrace (initState s t0) [inp]).2.map (fun e => e.batch.length) = [4] := by
  have hd : doEmit (initState s t0) inp = true := by
    simp only [doEmit, initState, Bool.or_eq_true, decide_eq_true_eq]
    left
    omega
  have hf : selfFires (initState s t0) inp = true := by
    simp only [selfFires, initState, decide_eq_true_eq]
    omega
  rw [runTrace, runTrace]
  rw [stepEv_snd, if_pos hd]
  simp only [initState] at hf
  simp [postSelf_snd_length, hf, initState]

/-- Witness for C8 (amended) at arrival instant 2. -/
theorem c8_single_metric_flush_carries_four_witness :
    s8.maxBufferSize = 100 ∧ s8.interval = 1 ∧ (1 : ℤ) < (inpAt 2).now - 0
    ∧ (runTrace (initState s8 0) [inpAt 2]).2.map (fun e => e.batch.length) = [4] :=
  ⟨rfl, rfl, by decide,
    c8_single_metric_flush_carries_four s8 0 (inpAt 2) rfl rfl (by decide)⟩

/-- C9 counterexample: the flushed batch of the `exInputs` run reaches
`maxBufferSize + 6` datapoints (3 self-report points carried over from
a previous non-flushing iteration plus 3 appended in the flushing
iteration), refuting the stated `maxBufferSize + 3` bound. -/
theorem c9_flush_size_counterexample :
    (runTrace (initState exS 0) exInputs).2.map (fun e => e.batch.length) = [2, 8]
    ∧ exS.maxBufferSize = 2
    ∧ ¬ (∀ ev ∈ (runTrace (initState exS 0) exInputs).2,
          ev.batch.length ≤ exS.maxBufferSize + 3) := by
  refine ⟨by decide, rfl, by decide⟩

/-- C9 (amended): the flush trigger is evaluated before the self-report
block appends anything, so when it is false no flush happens in that
iteration - the buffer simply keeps the appended points, even if the
three self-report points pushed it past `maxBufferSize` - and every
flushed batch holds at most `maxBufferSize + 6` datapoints. -/
theorem c9_pre_self_trigger_and_flush_bound (st : BatcherState) (inp : StepInput)
    (s : SignalFx) (t0 : ℤ) (inputs : List StepInput) (ev : FlushEvent)
    (hd : doEmit st inp = false)
    (hev : ev ∈ (runTrace (initState s t0) inputs).2) :
    (stepEv st inp).2 = none
    ∧ (step st inp).datapoints = (postSelf st inp).2
    ∧ ev.batch.length ≤ s.maxBufferSize + 6 := by
  refine ⟨?_, ?_, ?_⟩
  · rw [stepEv_snd, if_neg (by simp [hd])]
  · rw [step_spec, if_neg (by simp [hd])]
  · exact runTrace_flush_bound inputs (initState s t0) (by simp [initState]) ev hev

/-- Witness for C9 (amended) at a non-flushing iteration and the big
flush event of the concrete run. -/
theorem c9_pre_self_trigger_and_flush_bound_witness :
    doEmit (initState exS 0) (inpAt 1) = false
    ∧ evW ∈ (runTrace (initState exS 0) exInputs).2
    ∧ ((stepEv (initState exS 0) (inpAt 1)).2 = none
        ∧ (step (initState exS 0) (inpAt 1)).datapoints
            = (postSelf (initState exS 0) (inpAt 1)).2
        ∧ evW.batch.length ≤ exS.maxBufferSize + 6) :=
  ⟨by decide, by decide,
    c9_pre_self_trigger_and_flush_bound (initState exS 0) (inpAt 1) exS 0 exInputs
      evW (by decide) (by decide)⟩

/-- C10: `emitMetrics` never mutates the handler state on any path; the
emission duration is recorded, the buffer reset and `lastEmission`
reset only by the caller `Run`, on every flush; and the entire
post-state of a loop iteration is independent of the Transport outcome
(the HTTP oracle). -/
theorem c10_emitMetrics_frame (s : SignalFx) (d : List DataPoint) (o o2 : Oracle)
    (st : BatcherState) (inp : StepInput) :
    (s.emitMetrics d o).1 = s
    ∧ (doEmit st inp = true →
        (step st inp).datapoints = []
        ∧ (step st inp).lastEmission = inp.tAfter
        ∧ (step st inp).handler.emissionTimes
            = (postSelf st inp).1.emissionTimes ++ [inp.tAfter - inp.now])
    ∧ step st { inp with oracle := o2 } = step st inp := by
  refine ⟨emitMetrics_fst s d o, ?_, ?_⟩
  · intro h
    rw [step_spec, if_pos h]
    exact ⟨rfl, rfl, rfl⟩
  · rw [step_spec, step_spec]
    rfl

/-- Witness for C10 at a concrete flushing iteration. -/
theorem c10_emitMetrics_frame_witness :
    doEmit (initState s8 0) (inpAt 4) = true
    ∧ ((step (initState s8 0) (inpAt 4)).datapoints = []
        ∧ (step (initState s8 0) (inpAt 4)).lastEmission = (inpAt 4).tAfter
        ∧ (step (initState s8 0) (inpAt 4)).handler.emissionTimes
            = (postSelf (initState s8 0) (inpAt 4)).1.emissionTimes
                ++ [(inpAt 4).tAfter - (inpAt 4).now]) :=
  ⟨by decide,
    (c10_emitMetrics_frame s8 [] okOracle okOracle (initState s8 0) (inpAt 4)).2.1
      (by decide)⟩
